import Mathlib

/-!
Verification of the smokeshow test-instrumentation library.

The Python sources under `src/smokeshow/` are shallowly embedded below:
pure functions become Lean functions, and the side-effecting span/driver
code becomes functions that return an explicit trace of emitted events
(`Event`) together with the exception, if any, that the Python code would
let propagate.  External collaborators (the Playwright driver, the page,
the OpenTelemetry ids) are modelled as oracle inputs.
-/

namespace Smokeshow

/-! ### Character-list substring machinery

Python's `re.search` with the alternation pattern of literal keywords, and
Python's `in` operator on strings, are both "some keyword occurs as a
contiguous substring".  We model strings as their character lists. -/

/-- `charsStartWith p l` is true iff `p` is an initial segment of `l`. -/
def charsStartWith : List Char → List Char → Bool
  | [], _ => true
  | _ :: _, [] => false
  | p :: ps, c :: cs => p == c && charsStartWith ps cs

/-- `charsContain p l` is true iff `p` occurs contiguously inside `l`. -/
def charsContain (p : List Char) : List Char → Bool
  | [] => p.isEmpty
  | c :: cs => charsStartWith p (c :: cs) || charsContain p cs

/-- Case-sensitive substring containment on strings (Python's `pat in s`). -/
def strContains (s pat : String) : Bool :=
  charsContain pat.data s.data

/-- Lowercasing of a string as its character list (Python's `s.lower()`;
`Char.toLower`, like Python on the ASCII range, lowercases A–Z). -/
def lowerData (s : String) : List Char :=
  s.data.map Char.toLower

/-- Case-insensitive substring containment (Python's
`pat.lower() in s.lower()`, and `re.search(pat, s, re.IGNORECASE)` for a
literal pattern). -/
def strContainsCI (s pat : String) : Bool :=
  charsContain (lowerData pat) (lowerData s)

theorem charsStartWith_iff (p l : List Char) :
    charsStartWith p l = true ↔ ∃ t, l = p ++ t := by
  induction p generalizing l with
  | nil =>
    simp only [charsStartWith, List.nil_append]
    exact ⟨fun _ => ⟨l, rfl⟩, fun _ => trivial⟩
  | cons a ps ih =>
    cases l with
    | nil =>
      simp [charsStartWith]
    | cons c cs =>
      simp only [charsStartWith, Bool.and_eq_true, beq_iff_eq, ih,
        List.cons_append, List.cons.injEq]
      constructor
      · rintro ⟨rfl, t, rfl⟩
        exact ⟨t, rfl, rfl⟩
      · rintro ⟨t, rfl, rfl⟩
        exact ⟨rfl, t, rfl⟩

theorem charsContain_iff (p l : List Char) :
    charsContain p l = true ↔ ∃ a b, l = a ++ p ++ b := by
  induction l with
  | nil =>
    simp only [charsContain, List.isEmpty_iff]
    constructor
    · rintro rfl; exact ⟨[], [], rfl⟩
    · rintro ⟨a, b, h⟩
      rcases List.append_eq_nil.mp h.symm with ⟨h1, h2⟩
      exact (List.append_eq_nil.mp h1).2
  | cons c cs ih =>
    simp only [charsContain, Bool.or_eq_true, charsStartWith_iff, ih]
    constructor
    · rintro (⟨t, ht⟩ | ⟨a, b, h⟩)
      · exact ⟨[], t, by simp [ht]⟩
      · exact ⟨c :: a, b, by simp [h]⟩
    · rintro ⟨a, b, h⟩
      cases a with
      | nil =>
        left
        exact ⟨b, by simpa using h⟩
      | cons x xs =>
        right
        simp only [List.cons_append, List.cons.injEq] at h
        exact ⟨xs, b, h.2⟩

/-! ### `sensitive.py` -/

/-- The literal alternatives of `_SENSITIVE_PATTERNS`
(`re.compile(r"(password|passwd|card|cvv|ssn|credit|secret|token)", re.IGNORECASE)`). -/
def SENSITIVE_KEYWORDS : List String :=
  ["password", "passwd", "card", "cvv", "ssn", "credit", "secret", "token"]

/-- Sentinel returned for redacted values (`REDACTED` in `sensitive.py`). -/
def REDACTED : String := "[REDACTED]"

/-- `is_sensitive_selector` from `sensitive.py`: the case-insensitive regex
search succeeds iff some keyword occurs in the selector. -/
def is_sensitive_selector (selector : String) : Bool :=
  SENSITIVE_KEYWORDS.any (fun k => strContainsCI selector k)

/-- `redact_if_needed` from `sensitive.py`. -/
def redact_if_needed (value selector : String) (sensitive : Bool) : String :=
  if sensitive || is_sensitive_selector selector then REDACTED else value

/-- Spec-side redaction decision, phrased as the spec phrases it: the flag
is set, or some keyword of the fixed set occurs case-insensitively as a
substring (an explicit decomposition) of the selector. -/
def shouldRedactSpec (selector : String) (explicitFlag : Bool) : Prop :=
  explicitFlag = true ∨
    ∃ k ∈ SENSITIVE_KEYWORDS, ∃ a b,
      lowerData selector = a ++ lowerData k ++ b

theorem is_sensitive_selector_iff (selector : String) :
    is_sensitive_selector selector = true ↔
      ∃ k ∈ SENSITIVE_KEYWORDS, ∃ a b,
        lowerData selector = a ++ lowerData k ++ b := by
  simp only [is_sensitive_selector, List.any_eq_true, strContainsCI,
    charsContain_iff]

/-! ### Event trace model

Span operations, driver calls and log emissions become an explicit trace.
Each modelled code fragment touches a single span (its own), so events
carry no span identity. -/

/-- An OpenTelemetry attribute value (only the shapes the code produces). -/
inductive AttrValue where
  | str (s : String)
  | int (n : Int)
  | bool (b : Bool)
deriving DecidableEq, Repr

/-- Span status as set by `Span.set_status`. -/
inductive SpanStatus where
  | ok
  | error (msg : String)
deriving DecidableEq, Repr

/-- A call made to the underlying Playwright driver. -/
inductive DriverCall where
  | goto (url : String)
  | click (selector : String)
  | fill (selector value : String)
  | waitForSelector (selector : String)
  | queryAll (selector : String)
deriving DecidableEq, Repr

/-- One observable step of the instrumented code, in program order. -/
inductive Event where
  | startSpan (name : String) (attrs : List (String × AttrValue))
  | setAttr (key : String) (v : AttrValue)
  | setStatus (st : SpanStatus)
  | recordException (msg : String)
  | driver (c : DriverCall)
  | logError (msg : String)
  | endSpan
deriving DecidableEq, Repr

/-- Result of running one instrumented operation: the events it emitted and
the exception message, if any, that propagates to its caller. -/
structure ActionResult where
  events : List Event
  raised : Option String
deriving DecidableEq, Repr

/-- The value of the first `setAttr` for `key` in a trace, if any. -/
def attrVal (key : String) : List Event → Option AttrValue
  | [] => none
  | Event.setAttr k v :: rest => if k = key then some v else attrVal key rest
  | _ :: rest => attrVal key rest

/-- The first `setAttr` event of a trace (key and value), if any. -/
def firstSetAttr : List Event → Option (String × AttrValue)
  | [] => none
  | Event.setAttr k v :: _ => some (k, v)
  | _ :: rest => firstSetAttr rest

/-- All attribute keys of a trace in the temporal order in which they are
attached to the span: keys supplied at span creation appear at the
`startSpan` event, keys of later `setAttr` calls at those calls. -/
def attrOrder : List Event → List String
  | [] => []
  | Event.startSpan _ attrs :: rest => attrs.map Prod.fst ++ attrOrder rest
  | Event.setAttr k _ :: rest => k :: attrOrder rest
  | _ :: rest => attrOrder rest

/-- The last `setStatus` of a trace, if any (the status the span ends with). -/
def finalStatus (evs : List Event) : Option SpanStatus :=
  (evs.filterMap fun e => match e with
    | Event.setStatus st => some st
    | _ => none).getLast?

/-- Number of `endSpan` events in a trace. -/
def endCount (evs : List Event) : Nat :=
  evs.countP fun e => match e with
    | Event.endSpan => true
    | _ => false

/-- Number of error-log emissions in a trace. -/
def logCount (evs : List Event) : Nat :=
  evs.countP fun e => match e with
    | Event.logError _ => true
    | _ => false

/-! ### `spans.py` — `action_span` -/

/-- Python truthiness of the optional `selector` argument: `None` and the
empty string are falsy. -/
def selTruthy : Option String → Bool
  | none => false
  | some s => s ≠ ""

/-- Span display name chosen by `action_span`:
`f"{action_type}({selector})" if selector else action_type`. -/
def action_span_name (action_type : String) (selector : Option String) : String :=
  if selTruthy selector then
    action_type ++ "(" ++ selector.getD "" ++ ")"
  else
    action_type

/-- Creation-time attributes assembled by `action_span`: always
`test.action.type`, plus `test.action.selector` when the selector is
truthy, plus the extra attributes merged last. -/
def action_span_attrs (action_type : String) (selector : Option String)
    (extra : List (String × AttrValue)) : List (String × AttrValue) :=
  let attrs := [("test.action.type", AttrValue.str action_type)]
  let attrs := if selTruthy selector then
      attrs ++ [("test.action.selector", AttrValue.str (selector.getD ""))]
    else attrs
  attrs ++ extra

/-- The `startSpan` event produced by entering an `action_span`. -/
def actionSpanStart (action_type : String) (selector : Option String)
    (extra : List (String × AttrValue)) : Event :=
  Event.startSpan (action_span_name action_type selector)
    (action_span_attrs action_type selector extra)

/-! ### `actions.py` — `ActionInstrumentor`

Each action method is a function of the driver's observable behaviour
(an oracle) and the action's arguments.  `pageUrl` is the value of
`self._page.url` at the moment the action is invoked.  An `Except.error`
oracle component models the corresponding driver call raising. -/

/-- The four navigation-timing numbers returned by the injected
`performance.getEntriesByType` script (when it returns a non-null object). -/
structure NavTiming where
  domContentLoaded : Int
  loadEvent : Int
  transferSize : Int
  domInteractive : Int
deriving DecidableEq, Repr

/-- Driver behaviour observed by `navigate`: the current page URL, the
outcome of `page.goto` (failure, or an optional response status), and the
outcome of the timing-collection `page.evaluate` (failure, null, or data). -/
structure NavOracle where
  pageUrl : String
  goto : Except String (Option Int)
  timing : Except Unit (Option NavTiming)
deriving Repr

/-- `ActionInstrumentor.navigate`. -/
def navigate (o : NavOracle) (url : String) : ActionResult :=
  let pre := [actionSpanStart "navigate" none [("test.action.target_url", AttrValue.str url)],
              Event.setAttr "test.action.page_url" (AttrValue.str o.pageUrl),
              Event.driver (DriverCall.goto url)]
  match o.goto with
  | Except.error e => { events := pre ++ [Event.endSpan], raised := some e }
  | Except.ok resp =>
    let respEvs := match resp with
      | some st => [Event.setAttr "test.navigation.response_status" (AttrValue.int st)]
      | none => []
    let timEvs := match o.timing with
      | Except.error _ => []
      | Except.ok none => []
      | Except.ok (some t) =>
          [Event.setAttr "test.navigation.dom_content_loaded_ms" (AttrValue.int t.domContentLoaded),
           Event.setAttr "test.navigation.load_event_ms" (AttrValue.int t.loadEvent),
           Event.setAttr "test.navigation.transfer_size_bytes" (AttrValue.int t.transferSize),
           Event.setAttr "test.navigation.dom_interactive_ms" (AttrValue.int t.domInteractive)]
    { events := pre ++ respEvs ++ timEvs ++ [Event.setStatus SpanStatus.ok, Event.endSpan],
      raised := none }

/-- Driver behaviour for actions whose single driver call returns nothing
observable: the current page URL and whether the call raises. -/
structure SimpleOracle where
  pageUrl : String
  outcome : Except String Unit
deriving Repr

/-- `ActionInstrumentor.click`. -/
def click (o : SimpleOracle) (selector : String) : ActionResult :=
  let pre := [actionSpanStart "click" (some selector) [],
              Event.setAttr "test.action.page_url" (AttrValue.str o.pageUrl),
              Event.driver (DriverCall.click selector)]
  match o.outcome with
  | Except.error e => { events := pre ++ [Event.endSpan], raised := some e }
  | Except.ok _ =>
      { events := pre ++ [Event.setStatus SpanStatus.ok, Event.endSpan], raised := none }

/-- `ActionInstrumentor.fill`: records the redacted copy as
`test.action.input_value`, passes the original value to the driver. -/
def fill (o : SimpleOracle) (selector value : String) (sensitive : Bool) : ActionResult :=
  let pre := [actionSpanStart "fill" (some selector) [],
              Event.setAttr "test.action.page_url" (AttrValue.str o.pageUrl),
              Event.setAttr "test.action.input_value"
                (AttrValue.str (redact_if_needed value selector sensitive)),
              Event.driver (DriverCall.fill selector value)]
  match o.outcome with
  | Except.error e => { events := pre ++ [Event.endSpan], raised := some e }
  | Except.ok _ =>
      { events := pre ++ [Event.setStatus SpanStatus.ok, Event.endSpan], raised := none }

/-- `ActionInstrumentor.assert_visible`. -/
def assert_visible (o : SimpleOracle) (selector : String) : ActionResult :=
  let pre := [actionSpanStart "assert_visible" (some selector) [],
              Event.setAttr "test.action.page_url" (AttrValue.str o.pageUrl),
              Event.driver (DriverCall.waitForSelector selector)]
  match o.outcome with
  | Except.error e => { events := pre ++ [Event.endSpan], raised := some e }
  | Except.ok _ =>
      { events := pre ++ [Event.setAttr "test.action.result" (AttrValue.str "success"),
                          Event.setStatus SpanStatus.ok, Event.endSpan],
        raised := none }

/-- The ASCII single-quote character, kept out of string literals. -/
def sq : String := String.singleton (Char.ofNat 39)

/-- `q s` renders `s` wrapped in single quotes, as Python's `f"'{s}'"`. -/
def q (s : String) : String := sq ++ s ++ sq

/-- Message of both the error status and the `AssertionError` raised by
`assert_text` on mismatch. -/
def assertTextMsg (expected text : String) : String :=
  "Expected " ++ q expected ++ " in " ++ q text

/-- Driver behaviour for `assert_text`: page URL plus the outcome of the
visibility wait and the element's text content. -/
structure TextOracle where
  pageUrl : String
  wait : Except String String
deriving Repr

/-- `ActionInstrumentor.assert_text`: case-insensitive substring check of
`expected` within the element text. -/
def assert_text (o : TextOracle) (selector expected : String) : ActionResult :=
  let pre := [actionSpanStart "assert_text" (some selector) [],
              Event.setAttr "test.action.page_url" (AttrValue.str o.pageUrl),
              Event.driver (DriverCall.waitForSelector selector)]
  match o.wait with
  | Except.error e => { events := pre ++ [Event.endSpan], raised := some e }
  | Except.ok text =>
    if strContainsCI text expected then
      { events := pre ++ [Event.setAttr "test.action.result" (AttrValue.str "success"),
                          Event.setStatus SpanStatus.ok, Event.endSpan],
        raised := none }
    else
      { events := pre ++ [Event.setAttr "test.action.result" (AttrValue.str "failed"),
                          Event.setStatus (SpanStatus.error (assertTextMsg expected text)),
                          Event.endSpan],
        raised := some (assertTextMsg expected text) }

/-- Message of the error status set by `assert_count` on mismatch (it does
not mention the selector). -/
def assertCountStatusMsg (expected actual : Nat) : String :=
  "Expected " ++ toString expected ++ " elements, got " ++ toString actual

/-- Message of the `AssertionError` raised by `assert_count` on mismatch
(it does mention the selector). -/
def assertCountRaiseMsg (expected : Nat) (selector : String) (actual : Nat) : String :=
  "Expected " ++ toString expected ++ " elements matching " ++ q selector ++
    ", got " ++ toString actual

/-- Driver behaviour for `assert_count`: page URL plus the outcome of
`query_selector_all` (the number of matched elements). -/
structure CountOracle where
  pageUrl : String
  query : Except String Nat
deriving Repr

/-- `ActionInstrumentor.assert_count`. -/
def assert_count (o : CountOracle) (selector : String) (expected_count : Nat) :
    ActionResult :=
  let pre := [actionSpanStart "assert_count" (some selector) [],
              Event.setAttr "test.action.page_url" (AttrValue.str o.pageUrl),
              Event.driver (DriverCall.queryAll selector)]
  match o.query with
  | Except.error e => { events := pre ++ [Event.endSpan], raised := some e }
  | Except.ok actual =>
    let resEv := Event.setAttr "test.action.result"
      (AttrValue.str (if actual = expected_count then "success" else "failed"))
    if actual = expected_count then
      { events := pre ++ [resEv, Event.setStatus SpanStatus.ok, Event.endSpan],
        raised := none }
    else
      { events := pre ++ [resEv,
                          Event.setStatus (SpanStatus.error
                            (assertCountStatusMsg expected_count actual)),
                          Event.endSpan],
        raised := some (assertCountRaiseMsg expected_count selector actual) }

/-- Message of the error status set by `assert_url` on mismatch. -/
def assertUrlStatusMsg (pattern url : String) : String :=
  "Expected " ++ q pattern ++ " in URL " ++ q url

/-- Message of the `AssertionError` raised by `assert_url` on mismatch. -/
def assertUrlRaiseMsg (pattern url : String) : String :=
  "Expected " ++ q pattern ++ " in URL, got " ++ url

/-- `ActionInstrumentor.assert_url`: case-sensitive substring check of the
pattern within the current URL; the span has no selector in its name. -/
def assert_url (pageUrl pattern : String) : ActionResult :=
  let pre := [actionSpanStart "assert_url" none [],
              Event.setAttr "test.action.page_url" (AttrValue.str pageUrl)]
  if strContains pageUrl pattern then
    { events := pre ++ [Event.setAttr "test.action.result" (AttrValue.str "success"),
                        Event.setStatus SpanStatus.ok, Event.endSpan],
      raised := none }
  else
    { events := pre ++ [Event.setAttr "test.action.result" (AttrValue.str "failed"),
                        Event.setStatus (SpanStatus.error (assertUrlStatusMsg pattern pageUrl)),
                        Event.endSpan],
      raised := some (assertUrlRaiseMsg pattern pageUrl) }

/-! ### Claims about redaction and the actions -/

/-- C3: the redaction decision is true exactly when the explicit flag is
true or the selector contains one of the eight keywords as a
case-insensitive substring; `redact_if_needed` returns the fixed sentinel
`"[REDACTED]"` when the decision is true and the value unchanged
otherwise.  (Purity and determinism hold because the embedding is a plain
function of its arguments.) -/
theorem C3_redaction_policy (value selector : String) (sensitive : Bool) :
    ((sensitive || is_sensitive_selector selector) = true ↔
        shouldRedactSpec selector sensitive)
    ∧ (shouldRedactSpec selector sensitive →
        redact_if_needed value selector sensitive = "[REDACTED]")
    ∧ (¬ shouldRedactSpec selector sensitive →
        redact_if_needed value selector sensitive = value) := by
  have hdec : (sensitive || is_sensitive_selector selector) = true ↔
      shouldRedactSpec selector sensitive := by
    simp only [Bool.or_eq_true, shouldRedactSpec, is_sensitive_selector_iff]
  refine ⟨hdec, ?_, ?_⟩
  · intro h
    have hb := hdec.mpr h
    simp [redact_if_needed, hb, REDACTED]
  · intro h
    have hb : (sensitive || is_sensitive_selector selector) = false := by
      cases hor : (sensitive || is_sensitive_selector selector) with
      | false => rfl
      | true => exact absurd (hdec.mp hor) h
    simp [redact_if_needed, hb]

/-- Witness for C3 at concrete inputs: a selector containing `PassWord` is
redacted even with the flag off, and a non-matching selector passes the
value through. -/
theorem C3_redaction_policy_witness :
    redact_if_needed "secret123" "input#PassWord" false = "[REDACTED]"
    ∧ redact_if_needed "hi" "input#email" false = "hi" := by
  constructor
  · refine (C3_redaction_policy "secret123" "input#PassWord" false).2.1 ?_
    exact Or.inr ⟨"password", by decide, "input#".data, [], by decide⟩

  · refine (C3_redaction_policy "hi" "input#email" false).2.2 ?_
    rintro (h | ⟨k, hk, a, b, h⟩)
    · exact absurd h (by decide)
    · have : is_sensitive_selector "input#email" = true :=
        (is_sensitive_selector_iff "input#email").mpr ⟨k, hk, a, b, h⟩
      exact absurd this (by decide)

/-- C4: `fill` records the redaction-policy output as
`test.action.input_value` while the driver's fill call always receives the
original, unredacted value (for every oracle, selector, value and flag). -/
theorem C4_fill_redacts_only_recorded_copy (o : SimpleOracle)
    (selector value : String) (sensitive : Bool) :
    attrVal "test.action.input_value" (fill o selector value sensitive).events
      = some (AttrValue.str (redact_if_needed value selector sensitive))
    ∧ Event.driver (DriverCall.fill selector value)
        ∈ (fill o selector value sensitive).events
    ∧ (∀ s v, Event.driver (DriverCall.fill s v)
          ∈ (fill o selector value sensitive).events →
        s = selector ∧ v = value) := by
  cases h : o.outcome with
  | error e =>
    refine ⟨by simp [fill, h, attrVal, actionSpanStart], by simp [fill, h], ?_⟩
    intro s v hm
    simp [fill, h, actionSpanStart] at hm
    exact ⟨hm.1, hm.2⟩
  | ok u =>
    refine ⟨by simp [fill, h, attrVal, actionSpanStart], by simp [fill, h], ?_⟩
    intro s v hm
    simp [fill, h, actionSpanStart] at hm
    exact ⟨hm.1, hm.2⟩

/-- Witness for C4 at concrete inputs: the spec's own examples — a password
field records the sentinel, an email field records the literal value, and
both pass the real value to the driver. -/
theorem C4_fill_redacts_only_recorded_copy_witness :
    attrVal "test.action.input_value"
        (fill ⟨"http://x", Except.ok ()⟩ "input#password" "secret123" false).events
      = some (AttrValue.str "[REDACTED]")
    ∧ Event.driver (DriverCall.fill "input#password" "secret123")
        ∈ (fill ⟨"http://x", Except.ok ()⟩ "input#password" "secret123" false).events
    ∧ attrVal "test.action.input_value"
        (fill ⟨"http://x", Except.ok ()⟩ "input#email" "test@example.com" false).events
      = some (AttrValue.str "test@example.com") := by
  refine ⟨?_, ?_, ?_⟩
  · have h :=
      (C4_fill_redacts_only_recorded_copy ⟨"http://x", Except.ok ()⟩
        "input#password" "secret123" false).1
    rw [h]; decide
  · exact
      (C4_fill_redacts_only_recorded_copy ⟨"http://x", Except.ok ()⟩
        "input#password" "secret123" false).2.1
  · have h :=
      (C4_fill_redacts_only_recorded_copy ⟨"http://x", Except.ok ()⟩
        "input#email" "test@example.com" false).1
    rw [h]; decide

/-- C5: when the element is found with text `text`, `assert_text` succeeds
exactly when `expected` occurs case-insensitively in `text`; on success it
records `result=success` and status OK and raises nothing, on mismatch it
records `result=failed`, sets status error with message
`Expected '<expected>' in '<text>'` and raises that same message. -/
theorem C5_assert_text_semantics (o : TextOracle) (selector expected text : String)
    (hw : o.wait = Except.ok text) :
    ((∃ a b, lowerData text = a ++ lowerData expected ++ b) →
        attrVal "test.action.result" (assert_text o selector expected).events
          = some (AttrValue.str "success")
        ∧ finalStatus (assert_text o selector expected).events = some SpanStatus.ok
        ∧ (assert_text o selector expected).raised = none)
    ∧ (¬ (∃ a b, lowerData text = a ++ lowerData expected ++ b) →
        attrVal "test.action.result" (assert_text o selector expected).events
          = some (AttrValue.str "failed")
        ∧ finalStatus (assert_text o selector expected).events
            = some (SpanStatus.error (assertTextMsg expected text))
        ∧ (assert_text o selector expected).raised
            = some (assertTextMsg expected text)) := by
  have hiff : strContainsCI text expected = true ↔
      ∃ a b, lowerData text = a ++ lowerData expected ++ b :=
    charsContain_iff (lowerData expected) (lowerData text)
  constructor
  · intro hex
    have hb : strContainsCI text expected = true := hiff.mpr hex
    refine ⟨?_, ?_, ?_⟩ <;>
      simp [assert_text, hw, hb, attrVal, finalStatus, actionSpanStart]
  · intro hex
    have hb : strContainsCI text expected = false := by
      cases h : strContainsCI text expected with
      | false => rfl
      | true => exact absurd (hiff.mp h) hex
    refine ⟨?_, ?_, ?_⟩ <;>
      simp [assert_text, hw, hb, attrVal, finalStatus, actionSpanStart]

/-- Witness for C5 at the spec's own example: expected `"Hello"` inside
rendered text `"Hello World"` succeeds; expected `"Missing"` fails and
raises the message built from both strings. -/
theorem C5_assert_text_semantics_witness :
    (assert_text ⟨"http://x", Except.ok "Hello World"⟩ "h1" "Hello").raised = none
    ∧ (assert_text ⟨"http://x", Except.ok "Hello World"⟩ "h1" "Missing").raised
        = some (assertTextMsg "Missing" "Hello World") := by
  constructor
  · refine ((C5_assert_text_semantics ⟨"http://x", Except.ok "Hello World"⟩
      "h1" "Hello" "Hello World" rfl).1 ?_).2.2
    exact ⟨[], " world".data, by decide⟩
  · refine ((C5_assert_text_semantics ⟨"http://x", Except.ok "Hello World"⟩
      "h1" "Missing" "Hello World" rfl).2 ?_).2.2
    rintro ⟨a, b, h⟩
    have hb : strContainsCI "Hello World" "Missing" = true :=
      (charsContain_iff (lowerData "Missing") (lowerData "Hello World")).mpr ⟨a, b, h⟩
    exact absurd hb (by decide)

/-- C6: when the query returns `actual` matched elements, `assert_count`
succeeds exactly when `actual` equals the expected count; on success it
records `result=success` and status OK, on mismatch `result=failed`,
status error, and it raises
`Expected <expected> elements matching '<selector>', got <actual>`. -/
theorem C6_assert_count_semantics (o : CountOracle) (selector : String)
    (expected actual : Nat) (hq : o.query = Except.ok actual) :
    ((assert_count o selector expected).raised = none ↔ actual = expected)
    ∧ (actual = expected →
        attrVal "test.action.result" (assert_count o selector expected).events
          = some (AttrValue.str "success")
        ∧ finalStatus (assert_count o selector expected).events = some SpanStatus.ok)
    ∧ (actual ≠ expected →
        attrVal "test.action.result" (assert_count o selector expected).events
          = some (AttrValue.str "failed")
        ∧ (∃ m, finalStatus (assert_count o selector expected).events
              = some (SpanStatus.error m))
        ∧ (assert_count o selector expected).raised
            = some (assertCountRaiseMsg expected selector actual)) := by
  by_cases he : actual = expected
  · subst he
    refine ⟨?_, ?_, ?_⟩
    · simp [assert_count, hq]
    · intro _
      constructor <;> simp [assert_count, hq, attrVal, finalStatus, actionSpanStart]
    · intro h
      exact absurd rfl h
  · refine ⟨?_, ?_, ?_⟩
    · simp [assert_count, hq, he]
    · intro h
      exact absurd h he
    · intro _
      refine ⟨?_, ⟨assertCountStatusMsg expected actual, ?_⟩, ?_⟩ <;>
        simp [assert_count, hq, he, attrVal, finalStatus, actionSpanStart]

/-- Witness for C6 at the spec's own example: `assert_count("li", 3)`
succeeds against 3 elements and against 1 element fails with message
`Expected 3 elements matching 'li', got 1`. -/
theorem C6_assert_count_semantics_witness :
    (assert_count ⟨"http://x", Except.ok 3⟩ "li" 3).raised = none
    ∧ (assert_count ⟨"http://x", Except.ok 1⟩ "li" 3).raised
        = some (assertCountRaiseMsg 3 "li" 1) := by
  constructor
  · exact (C6_assert_count_semantics ⟨"http://x", Except.ok 3⟩ "li" 3 3 rfl).1.mpr rfl
  · exact ((C6_assert_count_semantics ⟨"http://x", Except.ok 1⟩ "li" 3 1 rfl).2.2
      (by decide)).2.2

/-- C9: a `navigate` whose timing collection raises still completes
normally — nothing is raised, the final status is OK, and the four timing
attributes are simply absent; only a failing `goto` itself makes
`navigate` raise. -/
theorem C9_navigate_swallows_timing_failure (o : NavOracle) (url : String)
    (resp : Option Int) (hg : o.goto = Except.ok resp)
    (ht : o.timing = Except.error ()) :
    (navigate o url).raised = none
    ∧ finalStatus (navigate o url).events = some SpanStatus.ok
    ∧ attrVal "test.navigation.dom_content_loaded_ms" (navigate o url).events = none
    ∧ attrVal "test.navigation.load_event_ms" (navigate o url).events = none
    ∧ attrVal "test.navigation.transfer_size_bytes" (navigate o url).events = none
    ∧ attrVal "test.navigation.dom_interactive_ms" (navigate o url).events = none
    ∧ (∀ e, o.goto = Except.error e → (navigate o url).raised = some e) := by
  cases resp with
  | none =>
    refine ⟨?_, ?_, ?_, ?_, ?_, ?_, ?_⟩ <;>
      simp [navigate, hg, ht, attrVal, finalStatus, actionSpanStart]
  | some st =>
    refine ⟨?_, ?_, ?_, ?_, ?_, ?_, ?_⟩ <;>
      simp [navigate, hg, ht, attrVal, finalStatus, actionSpanStart]

/-- Witness for C9 at a concrete oracle whose timing evaluation raises:
the action raises nothing, ends OK, and has no timing attributes. -/
theorem C9_navigate_swallows_timing_failure_witness :
    (navigate ⟨"about:blank", Except.ok (some 200), Except.error ()⟩
        "http://x").raised = none
    ∧ finalStatus (navigate ⟨"about:blank", Except.ok (some 200), Except.error ()⟩
        "http://x").events = some SpanStatus.ok
    ∧ attrVal "test.navigation.load_event_ms"
        (navigate ⟨"about:blank", Except.ok (some 200), Except.error ()⟩
          "http://x").events = none := by
  have h := C9_navigate_swallows_timing_failure
    ⟨"about:blank", Except.ok (some 200), Except.error ()⟩ "http://x" (some 200) rfl rfl
  exact ⟨h.1, h.2.1, h.2.2.2.1⟩

/-- C10: an empty-string selector is treated exactly like no selector at
all — the span is named by the action type alone, the attributes coincide
with the no-selector attributes, and no `test.action.selector` attribute
is set by the factory (so none is present unless the caller smuggles that
key in through the extra attributes). -/
theorem C10_empty_selector_is_no_selector (t : String)
    (extra : List (String × AttrValue)) :
    action_span_name t (some "") = t
    ∧ action_span_name t none = t
    ∧ action_span_attrs t (some "") extra = action_span_attrs t none extra
    ∧ action_span_attrs t (some "") extra
        = ("test.action.type", AttrValue.str t) :: extra
    ∧ ("test.action.selector" ∉ extra.map Prod.fst →
        "test.action.selector" ∉ (action_span_attrs t (some "") extra).map Prod.fst) := by
  refine ⟨rfl, rfl, rfl, rfl, ?_⟩
  intro hx
  have heq : action_span_attrs t (some "") extra
      = ("test.action.type", AttrValue.str t) :: extra := rfl
  rw [heq]
  simp only [List.map_cons, List.mem_cons]
  rintro (h | h)
  · exact absurd h (by decide)
  · exact hx h

/-- Witness for C10 at a concrete custom action type with no extra
attributes: the span is named by the type alone and carries no selector
key. -/
theorem C10_empty_selector_is_no_selector_witness :
    action_span_name "screenshot" (some "") = "screenshot"
    ∧ "test.action.selector"
        ∉ (action_span_attrs "screenshot" (some "") []).map Prod.fst := by
  have h := C10_empty_selector_is_no_selector "screenshot" []
  exact ⟨h.1, h.2.2.2.2 (by decide)⟩

/-- C8 counterexample: the claim says `test.action.page_url` is recorded
before any other attribute on the action span, but the creation-time
attributes of `action_span` (`test.action.type`, and `test.action.selector`
when a selector is given) are attached at span start, before the
`set_attribute` call that records the page URL.  Concretely, for
`click("a")` on a page at `http://a` the temporal attribute order starts
with `test.action.type`. -/
theorem C8_counterexample :
    attrOrder (click ⟨"http://a", Except.ok ()⟩ "a").events
      = ["test.action.type", "test.action.selector", "test.action.page_url"]
    ∧ (attrOrder (click ⟨"http://a", Except.ok ()⟩ "a").events).head?
        ≠ some "test.action.page_url" := by
  constructor <;> decide

/-- C8 (amended): in every one of the seven instrumented actions, the page
location is the first attribute recorded by a `set_attribute` call —
i.e. the first attribute after the span-creation attributes — under the
key `test.action.page_url`, and its value is the driver's URL read at the
moment the action is invoked (it is a function of the invocation-time
oracle, never a cached earlier value). -/
theorem C8_page_url_first_recorded (o1 : NavOracle) (o2 o3 o4 : SimpleOracle)
    (o5 : TextOracle) (o6 : CountOracle) (url u sel v pat : String) (b : Bool)
    (n : Nat) :
    firstSetAttr (navigate o1 url).events
      = some ("test.action.page_url", AttrValue.str o1.pageUrl)
    ∧ firstSetAttr (click o2 sel).events
      = some ("test.action.page_url", AttrValue.str o2.pageUrl)
    ∧ firstSetAttr (fill o3 sel v b).events
      = some ("test.action.page_url", AttrValue.str o3.pageUrl)
    ∧ firstSetAttr (assert_visible o4 sel).events
      = some ("test.action.page_url", AttrValue.str o4.pageUrl)
    ∧ firstSetAttr (assert_text o5 sel v).events
      = some ("test.action.page_url", AttrValue.str o5.pageUrl)
    ∧ firstSetAttr (assert_count o6 sel n).events
      = some ("test.action.page_url", AttrValue.str o6.pageUrl)
    ∧ firstSetAttr (assert_url u pat).events
      = some ("test.action.page_url", AttrValue.str u) := by
  refine ⟨?_, ?_, ?_, ?_, ?_, ?_, ?_⟩
  · cases hg : o1.goto with
    | error e => simp [navigate, hg, firstSetAttr, actionSpanStart]
    | ok resp => simp [navigate, hg, firstSetAttr, actionSpanStart]
  · cases h : o2.outcome <;> simp [click, h, firstSetAttr, actionSpanStart]
  · cases h : o3.outcome <;> simp [fill, h, firstSetAttr, actionSpanStart]
  · cases h : o4.outcome <;> simp [assert_visible, h, firstSetAttr, actionSpanStart]
  · cases h : o5.wait with
    | error e => simp [assert_text, h, firstSetAttr, actionSpanStart]
    | ok text =>
      by_cases hb : strContainsCI text v = true <;>
        simp [assert_text, h, hb, firstSetAttr, actionSpanStart]
  · cases h : o6.query with
    | error e => simp [assert_count, h, firstSetAttr, actionSpanStart]
    | ok actual =>
      by_cases hb : actual = n <;>
        simp [assert_count, h, hb, firstSetAttr, actionSpanStart]
  · by_cases hb : strContains u pat = true <;>
      simp [assert_url, hb, firstSetAttr, actionSpanStart]

/-! ### `test_case.py` — `TestCase.__aexit__` -/

/-- Little-endian hexadecimal digits of `n`, lowercase, no leading zeros
(`fuel` only bounds the recursion; `fuel ≥ n` always suffices). -/
def hexAux : Nat → Nat → List Char
  | 0, _ => []
  | fuel + 1, n => if n = 0 then [] else Nat.digitChar (n % 16) :: hexAux fuel (n / 16)

/-- Python's `format(n, "0{w}x")`: minimal lowercase hexadecimal digits of
`n` (just `"0"` for zero), zero-padded on the left to width `w`. -/
def pyHex (w n : Nat) : String :=
  let ds := (hexAux (w + n) n).reverse
  let ds := if ds = [] then ['0'] else ds
  String.mk (List.replicate (w - ds.length) '0' ++ ds)

theorem hexAux_length_le (fuel : Nat) : ∀ n w, n < 16 ^ w → w ≤ fuel →
    (hexAux fuel n).length ≤ w := by
  induction fuel with
  | zero =>
    intro n w _ hw
    simp [hexAux]
  | succ fuel ih =>
    intro n w hn hw
    by_cases hz : n = 0
    · simp [hexAux, hz]
    · have hw1 : 1 ≤ w := by
        by_contra hlt
        have : w = 0 := by omega
        subst this
        simp at hn
        omega
      have hdiv : n / 16 < 16 ^ (w - 1) := by
        have h16 : n < 16 * 16 ^ (w - 1) := by
          have hpow : 16 * 16 ^ (w - 1) = 16 ^ w := by
            have hw' : w - 1 + 1 = w := by omega
            calc 16 * 16 ^ (w - 1) = 16 ^ (w - 1 + 1) := by ring
              _ = 16 ^ w := by rw [hw']
          omega
        exact Nat.div_lt_of_lt_mul h16
      have := ih (n / 16) (w - 1) hdiv (by omega)
      have hstep : hexAux (fuel + 1) n
          = Nat.digitChar (n % 16) :: hexAux fuel (n / 16) := by
        simp [hexAux, hz]
      rw [hstep]
      simp only [List.length_cons]
      omega

/-- For `n < 16 ^ w` with `w ≥ 1`, the rendered string has exactly `w`
hexadecimal digits. -/
theorem pyHex_length (w n : Nat) (hw : 1 ≤ w) (hn : n < 16 ^ w) :
    (pyHex w n).length = w := by
  have hle : (hexAux (w + n) n).length ≤ w :=
    hexAux_length_le (w + n) n w hn (by omega)
  show (String.mk _).length = w
  simp only [String.length, String.data]
  by_cases hz : (hexAux (w + n) n).reverse = []
  · simp [hz, List.length_append, List.length_replicate]
    omega
  · simp only [if_neg hz, List.length_append, List.length_replicate,
      List.length_reverse]
    omega

/-- The label used in the failure log: `self._case_id or self._name`
(Python `or` on strings: the id unless it is empty). -/
def caseLabel (caseId name : String) : String :=
  if caseId = "" then name else caseId

/-- The message of the error log emitted for a failed case
(`"Test case FAILED: %s [%s] — %s (url=%s, trace_id=%s, span_id=%s)"`
with the label, suite name, exception text, page URL and the fixed-width
hexadecimal ids substituted). -/
def failLogMsg (label suiteName msg url : String) (traceId spanId : Nat) : String :=
  "Test case FAILED: " ++ label ++ " [" ++ suiteName ++ "] — " ++ msg ++
    " (url=" ++ url ++ ", trace_id=" ++ pyHex 32 traceId ++
    ", span_id=" ++ pyHex 16 spanId ++ ")"

/-- Observable surroundings of `TestCase.__aexit__`: the page URL at exit
time and the case span's trace/span ids. -/
structure CaseExitOracle where
  pageUrl : String
  traceId : Nat
  spanId : Nat
deriving Repr

/-- Result of `TestCase.__aexit__`: the events emitted, the boolean passed
to the aggregator callback `_record_result`, and the value returned to the
`async with` machinery (`False`, i.e. never suppress the exception). -/
structure CaseExitResult where
  events : List Event
  reported : Bool
  suppress : Bool
deriving DecidableEq, Repr

/-- `TestCase.__aexit__`: `exc` is `str(exc_val)` of the exception raised
in the body, or `none` when the body completed normally. -/
def testCaseExit (o : CaseExitOracle) (caseId name suiteName : String)
    (loggerConfigured : Bool) (exc : Option String) : CaseExitResult :=
  match exc with
  | some msg =>
    let logEvs := if loggerConfigured then
        [Event.logError (failLogMsg (caseLabel caseId name) suiteName msg
          o.pageUrl o.traceId o.spanId)]
      else []
    { events := [Event.setAttr "test.case.result" (AttrValue.str "failed"),
                 Event.setAttr "test.case.failure_reason" (AttrValue.str msg),
                 Event.setAttr "test.case.failure_url" (AttrValue.str o.pageUrl),
                 Event.setStatus (SpanStatus.error msg),
                 Event.recordException msg] ++ logEvs ++ [Event.endSpan],
      reported := false, suppress := false }
  | none =>
    { events := [Event.setAttr "test.case.result" (AttrValue.str "passed"),
                 Event.setStatus SpanStatus.ok,
                 Event.endSpan],
      reported := true, suppress := false }

/-- A string that is the left part ++ pattern ++ right part contains the
pattern (bridge from explicit decompositions to `strContains`). -/
theorem strContains_of_decomp (s a p b : String) (h : s = a ++ p ++ b) :
    strContains s p = true := by
  subst h
  refine (charsContain_iff p.data (a ++ p ++ b).data).mpr ?_
  exact ⟨a.data, b.data, by simp [String.data_append]⟩

/-- C2 counterexample: the claim requires the recorded
`test.case.failure_reason` to be non-empty, but the code records
`str(exc_val)` verbatim, so an exception whose message is the empty string
(e.g. `raise AssertionError()`) yields an empty recorded reason. -/
theorem C2_counterexample :
    attrVal "test.case.failure_reason"
        (testCaseExit ⟨"http://x", 0, 0⟩ "TC-1" "login" "smoke" false
          (some "")).events
      = some (AttrValue.str "")
    ∧ ¬ ∃ s, s ≠ "" ∧ attrVal "test.case.failure_reason"
        (testCaseExit ⟨"http://x", 0, 0⟩ "TC-1" "login" "smoke" false
          (some "")).events
      = some (AttrValue.str s) := by
  have h1 : attrVal "test.case.failure_reason"
      (testCaseExit ⟨"http://x", 0, 0⟩ "TC-1" "login" "smoke" false
        (some "")).events
      = some (AttrValue.str "") := by decide
  refine ⟨h1, ?_⟩
  rintro ⟨s, hs, h⟩
  have := h1.symm.trans h
  have : ("" : String) = s := by
    injection this with h2
    injection h2
  exact hs this.symm

/-- C2 (amended): a test case whose body raises with message `msg` closes
its span exactly once with `result=failed`, `failure_reason = msg` (the
exception's message verbatim — empty exactly when the message is empty),
`failure_url` the current page URL, error status and a recorded exception;
`failed` is reported to the aggregator; with a logger configured exactly
one error log is emitted whose message contains the case label, suite
name, message, URL and the 32/16-hex-digit trace and span ids; and the
exception is never suppressed. -/
theorem C2_case_failure_semantics (o : CaseExitOracle)
    (caseId name suiteName msg : String) (logger : Bool) (r : CaseExitResult)
    (hr : r = testCaseExit o caseId name suiteName logger (some msg))
    (htid : o.traceId < 16 ^ 32) (hsid : o.spanId < 16 ^ 16)
    (lmsg : String)
    (hl : lmsg = failLogMsg (caseLabel caseId name) suiteName msg
      o.pageUrl o.traceId o.spanId) :
    endCount r.events = 1
    ∧ attrVal "test.case.result" r.events = some (AttrValue.str "failed")
    ∧ attrVal "test.case.failure_reason" r.events = some (AttrValue.str msg)
    ∧ attrVal "test.case.failure_url" r.events = some (AttrValue.str o.pageUrl)
    ∧ finalStatus r.events = some (SpanStatus.error msg)
    ∧ Event.recordException msg ∈ r.events
    ∧ r.reported = false
    ∧ r.suppress = false
    ∧ (logger = true →
        logCount r.events = 1 ∧ Event.logError lmsg ∈ r.events)
    ∧ (logger = false → logCount r.events = 0)
    ∧ strContains lmsg (caseLabel caseId name) = true
    ∧ strContains lmsg suiteName = true
    ∧ strContains lmsg msg = true
    ∧ strContains lmsg o.pageUrl = true
    ∧ strContains lmsg (pyHex 32 o.traceId) = true
    ∧ strContains lmsg (pyHex 16 o.spanId) = true
    ∧ (pyHex 32 o.traceId).length = 32
    ∧ (pyHex 16 o.spanId).length = 16 := by
  subst hr
  subst hl
  refine ⟨?_, ?_, ?_, ?_, ?_, ?_, ?_, ?_, ?_, ?_, ?_, ?_, ?_, ?_, ?_, ?_, ?_, ?_⟩
  · cases logger <;> simp [testCaseExit, endCount]
  · cases logger <;> simp [testCaseExit, attrVal]
  · cases logger <;> simp [testCaseExit, attrVal]
  · cases logger <;> simp [testCaseExit, attrVal]
  · cases logger <;> simp [testCaseExit, finalStatus]
  · cases logger <;> simp [testCaseExit]
  · cases logger <;> simp [testCaseExit]
  · cases logger <;> simp [testCaseExit]
  · intro hlog
    subst hlog
    constructor
    · simp [testCaseExit, logCount]
    · simp [testCaseExit]
  · intro hlog
    subst hlog
    simp [testCaseExit, logCount]
  · exact strContains_of_decomp _ "Test case FAILED: " _
      (" [" ++ suiteName ++ "] — " ++ msg ++ " (url=" ++ o.pageUrl ++
        ", trace_id=" ++ pyHex 32 o.traceId ++ ", span_id=" ++
        pyHex 16 o.spanId ++ ")")
      (by simp [failLogMsg, String.append_assoc])
  · exact strContains_of_decomp _
      ("Test case FAILED: " ++ caseLabel caseId name ++ " [") _
      ("] — " ++ msg ++ " (url=" ++ o.pageUrl ++ ", trace_id=" ++
        pyHex 32 o.traceId ++ ", span_id=" ++ pyHex 16 o.spanId ++ ")")
      (by simp [failLogMsg, String.append_assoc])
  · exact strContains_of_decomp _
      ("Test case FAILED: " ++ caseLabel caseId name ++ " [" ++ suiteName ++
        "] — ") _
      (" (url=" ++ o.pageUrl ++ ", trace_id=" ++ pyHex 32 o.traceId ++
        ", span_id=" ++ pyHex 16 o.spanId ++ ")")
      (by simp [failLogMsg, String.append_assoc])
  · exact strContains_of_decomp _
      ("Test case FAILED: " ++ caseLabel caseId name ++ " [" ++ suiteName ++
        "] — " ++ msg ++ " (url=") _
      (", trace_id=" ++ pyHex 32 o.traceId ++ ", span_id=" ++
        pyHex 16 o.spanId ++ ")")
      (by simp [failLogMsg, String.append_assoc])
  · exact strContains_of_decomp _
      ("Test case FAILED: " ++ caseLabel caseId name ++ " [" ++ suiteName ++
        "] — " ++ msg ++ " (url=" ++ o.pageUrl ++ ", trace_id=") _
      (", span_id=" ++ pyHex 16 o.spanId ++ ")")
      (by simp [failLogMsg, String.append_assoc])
  · exact strContains_of_decomp _
      ("Test case FAILED: " ++ caseLabel caseId name ++ " [" ++ suiteName ++
        "] — " ++ msg ++ " (url=" ++ o.pageUrl ++ ", trace_id=" ++
        pyHex 32 o.traceId ++ ", span_id=") _ ")"
      (by simp [failLogMsg, String.append_assoc])
  · exact pyHex_length 32 o.traceId (by omega) htid
  · exact pyHex_length 16 o.spanId (by omega) hsid

/-- Witness for C2 at a concrete failing case with a logger configured. -/
theorem C2_case_failure_semantics_witness :
    (testCaseExit ⟨"http://x", 255, 10⟩ "TC-1" "login" "smoke" true
        (some "boom")).reported = false
    ∧ endCount (testCaseExit ⟨"http://x", 255, 10⟩ "TC-1" "login" "smoke" true
        (some "boom")).events = 1
    ∧ (pyHex 32 255).length = 32 := by
  have h := C2_case_failure_semantics ⟨"http://x", 255, 10⟩ "TC-1" "login"
    "smoke" "boom" true _ rfl (by norm_num) (by norm_num) _ rfl
  exact ⟨h.2.2.2.2.2.2.1, h.1, h.2.2.2.2.2.2.2.2.2.2.2.2.2.2.2.2.1⟩

/-! ### `browser.py` — suite counters and `__aexit__` aggregation -/

/-- The mutable counters of `InstrumentedBrowser`
(`_total`, `_passed`, `_failed`), all zero after `__init__`. -/
structure SuiteCounters where
  total : Nat
  passed : Nat
  failed : Nat
deriving DecidableEq, Repr

/-- Counter state right after `InstrumentedBrowser.__init__`. -/
def initCounters : SuiteCounters := ⟨0, 0, 0⟩

/-- The counter effect of `InstrumentedBrowser.test_case`: the total is
incremented at test-case creation time, before the case runs. -/
def test_case_create (s : SuiteCounters) : SuiteCounters :=
  { s with total := s.total + 1 }

/-- `InstrumentedBrowser._record_result`, the callback each case invokes
from its own `__aexit__`. -/
def record_result (s : SuiteCounters) (passed : Bool) : SuiteCounters :=
  if passed then { s with passed := s.passed + 1 }
  else { s with failed := s.failed + 1 }

/-- A suite run over a sequence of case outcomes (`true` = the case body
completed, `false` = it raised): each case is created (incrementing the
total) and then closes, reporting its outcome through the callback. -/
def runSuite (outcomes : List Bool) : SuiteCounters :=
  outcomes.foldl (fun s ok => record_result (test_case_create s) ok) initCounters

/-- The suite result classification computed in
`InstrumentedBrowser.__aexit__`. -/
def suiteResult (s : SuiteCounters) : String :=
  if s.failed = 0 then "passed"
  else if s.passed = 0 then "failed"
  else "partial"

/-- The suite-level attributes stamped on the root span by
`InstrumentedBrowser.__aexit__` just before it ends the span. -/
def suiteExitAttrs (s : SuiteCounters) : List (String × AttrValue) :=
  [("test.suite.total_tests", AttrValue.int s.total),
   ("test.suite.passed", AttrValue.int s.passed),
   ("test.suite.failed", AttrValue.int s.failed),
   ("test.suite.result", AttrValue.str (suiteResult s))]

theorem runSuite_counts (outcomes : List Bool) : ∀ s : SuiteCounters,
    outcomes.foldl (fun s ok => record_result (test_case_create s) ok) s
      = ⟨s.total + outcomes.length, s.passed + outcomes.count true,
         s.failed + outcomes.count false⟩ := by
  induction outcomes with
  | nil => intro s; simp
  | cons b bs ih =>
    intro s
    rw [List.foldl_cons, ih]
    cases b <;>
      simp [record_result, test_case_create, List.count_cons,
        SuiteCounters.mk.injEq] <;> omega

/-- Classification rule of `suiteResult`, characterised by the counter
values alone. -/
theorem suiteResult_classification (s : SuiteCounters) :
    (suiteResult s = "passed" ↔ s.failed = 0)
    ∧ (suiteResult s = "failed" ↔ s.passed = 0 ∧ 0 < s.failed)
    ∧ (suiteResult s = "partial" ↔ 0 < s.passed ∧ 0 < s.failed) := by
  by_cases hf : s.failed = 0
  · simp [suiteResult, hf]
  · by_cases hp : s.passed = 0
    · simp [suiteResult, hf, hp, Nat.pos_of_ne_zero hf]
    · simp [suiteResult, hf, hp, Nat.pos_of_ne_zero hf, Nat.pos_of_ne_zero hp]

/-- C1: over any sequence of N test cases of which P passed and F failed,
the suite close stamps `total_tests = N`, `passed = P`, `failed = F` and
the classification `"passed"` iff F = 0, `"failed"` iff P = 0 and F > 0,
`"partial"` otherwise; the total is incremented at case creation and
passed/failed only by the close callback. -/
theorem C1_suite_aggregation (outcomes : List Bool) :
    (runSuite outcomes).total = outcomes.length
    ∧ (runSuite outcomes).passed = outcomes.count true
    ∧ (runSuite outcomes).failed = outcomes.count false
    ∧ suiteExitAttrs (runSuite outcomes)
        = [("test.suite.total_tests", AttrValue.int outcomes.length),
           ("test.suite.passed", AttrValue.int (outcomes.count true)),
           ("test.suite.failed", AttrValue.int (outcomes.count false)),
           ("test.suite.result", AttrValue.str (suiteResult (runSuite outcomes)))]
    ∧ (suiteResult (runSuite outcomes) = "passed" ↔ outcomes.count false = 0)
    ∧ (suiteResult (runSuite outcomes) = "failed" ↔
        outcomes.count true = 0 ∧ 0 < outcomes.count false)
    ∧ (suiteResult (runSuite outcomes) = "partial" ↔
        0 < outcomes.count true ∧ 0 < outcomes.count false)
    ∧ (∀ s : SuiteCounters, (test_case_create s).total = s.total + 1
        ∧ (test_case_create s).passed = s.passed
        ∧ (test_case_create s).failed = s.failed)
    ∧ (∀ s : SuiteCounters, (record_result s true).passed = s.passed + 1
        ∧ (record_result s false).failed = s.failed + 1
        ∧ (record_result s true).failed = s.failed
        ∧ (record_result s false).passed = s.passed
        ∧ ∀ b, (record_result s b).total = s.total) := by
  have hrun : runSuite outcomes
      = ⟨outcomes.length, outcomes.count true, outcomes.count false⟩ := by
    have := runSuite_counts outcomes initCounters
    simpa [runSuite, initCounters] using this
  have hclass := suiteResult_classification (runSuite outcomes)
  refine ⟨by rw [hrun], by rw [hrun], by rw [hrun],
    by rw [hrun]; rfl, ?_, ?_, ?_, ?_, ?_⟩
  · rw [hclass.1, hrun]
  · rw [hclass.2.1, hrun]
  · rw [hclass.2.2, hrun]
  · intro s
    exact ⟨rfl, rfl, rfl⟩
  · intro s
    refine ⟨rfl, rfl, rfl, rfl, ?_⟩
    intro b
    cases b <;> rfl

/-! ### `config.py` — `SmokeshowConfig` -/

/-- The environment variables consulted by `SmokeshowConfig.__post_init__`
(`os.environ.get`: `none` models an unset variable). -/
structure Env where
  OTEL_SERVICE_NAME : Option String
  OTEL_EXPORTER_OTLP_ENDPOINT : Option String
  PLAYWRIGHT_OTEL_ENVIRONMENT : Option String
  PLAYWRIGHT_OTEL_TRIGGER : Option String
  PLAYWRIGHT_OTEL_BROWSER : Option String
  PLAYWRIGHT_OTEL_HEADLESS : Option String
deriving Repr

/-- The fields of the `SmokeshowConfig` dataclass, with the constructor's
zero-value defaults standing for "left unset". -/
structure SmokeshowConfig where
  service_name : String
  suite_name : String
  base_url : String
  otlp_endpoint : String
  otlp_insecure : Bool
  environment : String
  trigger : String
  browser_type : String
  headless : Bool
  viewport_width : Nat
  viewport_height : Nat
deriving DecidableEq, Repr

/-- Parsing of `PLAYWRIGHT_OTEL_HEADLESS`:
`headless_env.lower() not in ("false", "0", "no")`. -/
def parseHeadlessEnv (h : String) : Bool :=
  !(["false", "0", "no"].map lowerData).contains (lowerData h)

/-- `SmokeshowConfig.__post_init__`: environment defaults are applied only
to fields left at their zero value (`""` for the five string options with
an environment variable; default-`True` for `headless`); the other fields
are never touched. -/
def post_init (c : SmokeshowConfig) (env : Env) : SmokeshowConfig :=
  { c with
    service_name := if c.service_name = "" then
        env.OTEL_SERVICE_NAME.getD "playwright-otel"
      else c.service_name,
    otlp_endpoint := if c.otlp_endpoint = "" then
        env.OTEL_EXPORTER_OTLP_ENDPOINT.getD "http://localhost:4317"
      else c.otlp_endpoint,
    environment := if c.environment = "" then
        env.PLAYWRIGHT_OTEL_ENVIRONMENT.getD "development"
      else c.environment,
    trigger := if c.trigger = "" then
        env.PLAYWRIGHT_OTEL_TRIGGER.getD "manual"
      else c.trigger,
    browser_type := if c.browser_type = "" then
        env.PLAYWRIGHT_OTEL_BROWSER.getD "chromium"
      else c.browser_type,
    headless := match env.PLAYWRIGHT_OTEL_HEADLESS with
      | some h => if c.headless = true then parseHeadlessEnv h else c.headless
      | none => c.headless }

/-- C7: for every recognized option, a non-zero-value supplied to the
constructor survives `__post_init__` untouched, and the environment is
consulted only for fields left at their zero value ("unset"): the five
string options with an env var fall back to `env.get(var, default)` when
empty, `headless` falls back to the parsed env var only when left at its
default `True`, and suite name, base URL, insecure flag and viewport
dimensions always keep the constructor value (no env var exists for
them). -/
theorem C7_constructor_wins_over_env (c : SmokeshowConfig) (env : Env) :
    (c.service_name ≠ "" → (post_init c env).service_name = c.service_name)
    ∧ (c.service_name = "" → (post_init c env).service_name
        = env.OTEL_SERVICE_NAME.getD "playwright-otel")
    ∧ (c.otlp_endpoint ≠ "" → (post_init c env).otlp_endpoint = c.otlp_endpoint)
    ∧ (c.otlp_endpoint = "" → (post_init c env).otlp_endpoint
        = env.OTEL_EXPORTER_OTLP_ENDPOINT.getD "http://localhost:4317")
    ∧ (c.environment ≠ "" → (post_init c env).environment = c.environment)
    ∧ (c.environment = "" → (post_init c env).environment
        = env.PLAYWRIGHT_OTEL_ENVIRONMENT.getD "development")
    ∧ (c.trigger ≠ "" → (post_init c env).trigger = c.trigger)
    ∧ (c.trigger = "" → (post_init c env).trigger
        = env.PLAYWRIGHT_OTEL_TRIGGER.getD "manual")
    ∧ (c.browser_type ≠ "" → (post_init c env).browser_type = c.browser_type)
    ∧ (c.browser_type = "" → (post_init c env).browser_type
        = env.PLAYWRIGHT_OTEL_BROWSER.getD "chromium")
    ∧ (post_init c env).suite_name = c.suite_name
    ∧ (post_init c env).base_url = c.base_url
    ∧ (post_init c env).otlp_insecure = c.otlp_insecure
    ∧ (post_init c env).viewport_width = c.viewport_width
    ∧ (post_init c env).viewport_height = c.viewport_height
    ∧ (c.headless = false → (post_init c env).headless = false)
    ∧ (c.headless = true → (post_init c env).headless
        = (match env.PLAYWRIGHT_OTEL_HEADLESS with
           | none => true
           | some h => parseHeadlessEnv h)) := by
  refine ⟨?_, ?_, ?_, ?_, ?_, ?_, ?_, ?_, ?_, ?_, rfl, rfl, rfl, rfl, rfl,
    ?_, ?_⟩
  · intro h; simp [post_init, h]
  · intro h; simp [post_init, h]
  · intro h; simp [post_init, h]
  · intro h; simp [post_init, h]
  · intro h; simp [post_init, h]
  · intro h; simp [post_init, h]
  · intro h; simp [post_init, h]
  · intro h; simp [post_init, h]
  · intro h; simp [post_init, h]
  · intro h; simp [post_init, h]
  · intro h
    cases henv : env.PLAYWRIGHT_OTEL_HEADLESS <;> simp [post_init, henv, h]
  · intro h
    cases henv : env.PLAYWRIGHT_OTEL_HEADLESS <;> simp [post_init, henv, h]

/-- Witness for C7 at a concrete constructor/environment pair: an
explicitly supplied service name survives, an unset endpoint falls back to
the environment value, and an explicit `headless=False` is not overridden
by the environment. -/
theorem C7_constructor_wins_over_env_witness :
    (post_init
        ⟨"svc", "suite", "http://base", "", true, "", "", "", false, 800, 600⟩
        ⟨some "envsvc", some "http://collector:4317", some "prod", some "ci",
         some "firefox", some "true"⟩).service_name = "svc"
    ∧ (post_init
        ⟨"svc", "suite", "http://base", "", true, "", "", "", false, 800, 600⟩
        ⟨some "envsvc", some "http://collector:4317", some "prod", some "ci",
         some "firefox", some "true"⟩).otlp_endpoint = "http://collector:4317"
    ∧ (post_init
        ⟨"svc", "suite", "http://base", "", true, "", "", "", false, 800, 600⟩
        ⟨some "envsvc", some "http://collector:4317", some "prod", some "ci",
         some "firefox", some "true"⟩).headless = false := by
  have hthm := C7_constructor_wins_over_env
    ⟨"svc", "suite", "http://base", "", true, "", "", "", false, 800, 600⟩
    ⟨some "envsvc", some "http://collector:4317", some "prod", some "ci",
     some "firefox", some "true"⟩
  refine ⟨hthm.1 (by decide), ?_, hthm.2.2.2.2.2.2.2.2.2.2.2.2.2.2.2.1 rfl⟩
  have h := hthm.2.2.2.1 rfl
  simpa using h

end Smokeshow
